import Mathlib

/-!
# Verification of the live-audio Controller/Output lifecycle

Shallow embedding of `src/Live/Audio/Controller.js` / `src/unnamed/part_000`
(the `Controller` class and the module-level `getSharedAudioContext` helper),
together with the parts of the repository's `Output.js` that the Controller
relies on (`Output.js` is not present under `src/`, so those operations are
modelled from the spec and marked as such).

Modelling conventions:
* JavaScript numbers used as volumes are modelled as `ℚ` (the code only
  stores, compares with `<= 0`, and passes them through).
* Mutable object state is explicit state passing: each method takes and
  returns a `Controller` value; a method that can reject (an `async`
  function whose awaited promise rejects) returns an `Except Err` result
  alongside the post-state, because mutations performed before the failing
  `await` survive on the real object.
* Object identity is modelled by numeric ids handed out by counters
  (`nextContextId`, `nextOutputId`); the counters `contextsCreated` and
  `outputsCreated` count constructor invocations and exist purely as
  observations (no source behaviour reads them).
* JavaScript truthiness of registry entries (`if (this.#sounds[name])`,
  `if (sound)`) is modelled by a `truthy : Bool` field on stored values;
  a missing key (`undefined`) is falsy.
* `await` suspension points: `acquireOutput` is split into the segments the
  source executes between awaits, so that both the sequential call and the
  interleaving of two concurrent calls are compositions of the same
  segments (see `Controller.acquireOutput` and
  `Controller.acquireOutputPair`).
-/

/-- The `state` attribute of a Web Audio `AudioContext`. -/
inductive ACState
  | running
  | suspended
  | closed
deriving DecidableEq, Repr

/-- An `AudioContext` object: identity plus its `state` attribute.
`id` models reference identity (two contexts constructed separately have
different ids). -/
structure AudioContext where
  id : Nat
  state : ACState
deriving DecidableEq, Repr

/-- A JavaScript exception escaping one of the async operations:
`typeError` models `new (window.AudioContext || window.webkitAudioContext)`
throwing when neither constructor exists; `resumeRejected` models the
promise returned by `audioContext.resume()` rejecting. -/
inductive Err
  | typeError
  | resumeRejected
deriving DecidableEq, Repr

/-- The host `window` object together with the environment behaviour that
`getSharedAudioContext` depends on.
* `cached` is the `window._liveAudioContext` property (`none` = unset).
* `hasCtor` is the truthiness of `window.AudioContext || window.webkitAudioContext`.
* `initialState` is the `state` a freshly constructed context starts in.
* `resumeOk` is whether `audioContext.resume()` resolves (`true`) or rejects.
* `nextContextId` / `contextsCreated` instrument context construction. -/
structure WindowState where
  cached : Option AudioContext
  hasCtor : Bool
  initialState : ACState
  resumeOk : Bool
  nextContextId : Nat
  contextsCreated : Nat
deriving DecidableEq, Repr

deriving instance DecidableEq for Except

/-- Where `getSharedAudioContext` stands after its synchronous prefix:
either it completed without an internal `await` (`done`), or it constructed
a suspended context and is parked on `await audioContext.resume()`
(`awaitingResume`).  The `Option AudioContext` inside `done` mirrors the
possibility of a falsy result that `acquireOutput` checks for with
`if (!audioContext)`; no path of the source produces `none`. -/
inductive SharedPhase
  | done (r : Except Err (Option AudioContext))
  | awaitingResume (ac : AudioContext)
deriving DecidableEq, Repr

/-- Creation path of `getSharedAudioContext` (source lines 11–23 of
`src/unnamed/part_000`): runs when the cache is empty or holds a closed
context.  Constructs a context with the ambient constructor (throwing a
`TypeError` when none exists); if the new context is `suspended` it starts
`resume()` and suspends, otherwise it stores the context in the window
cache and completes. -/
def getSharedCreate (w : WindowState) : SharedPhase × WindowState :=
  if w.hasCtor then
    let ac : AudioContext := { id := w.nextContextId, state := w.initialState }
    let w1 : WindowState :=
      { w with nextContextId := w.nextContextId + 1, contextsCreated := w.contextsCreated + 1 }
    if ac.state = ACState.suspended then
      (SharedPhase.awaitingResume ac, w1)
    else
      (SharedPhase.done (Except.ok (some ac)), { w1 with cached := some ac })
  else
    (SharedPhase.done (Except.error Err.typeError), w)

/-- Synchronous prefix of `getSharedAudioContext` (source lines 6–26): reads
`window._liveAudioContext`; a cached context that is not closed is returned
as-is, otherwise the creation path runs. -/
def getSharedSeg1 (w : WindowState) : SharedPhase × WindowState :=
  match w.cached with
  | some ac =>
      if ac.state = ACState.closed then getSharedCreate w
      else (SharedPhase.done (Except.ok (some ac)), w)
  | none => getSharedCreate w

/-- Continuation of `getSharedAudioContext` after `await audioContext.resume()`
(source lines 17–25): if `resume()` resolves, the context is running and is
stored in the window cache; if it rejects, the `await` rethrows and the
cache is left unset. -/
def getSharedSeg2 (ac : AudioContext) (w : WindowState) :
    Except Err (Option AudioContext) × WindowState :=
  if w.resumeOk then
    let ac' : AudioContext := { ac with state := ACState.running }
    (Except.ok (some ac'), { w with cached := some ac' })
  else
    (Except.error Err.resumeRejected, w)

/-- Drives a `SharedPhase` to completion (runs the resume continuation when
the prefix suspended). -/
def finishShared : SharedPhase → WindowState → Except Err (Option AudioContext) × WindowState
  | SharedPhase.done r, w => (r, w)
  | SharedPhase.awaitingResume ac, w => getSharedSeg2 ac w

/-- The full sequential `getSharedAudioContext(window)` (source lines 6–26):
prefix followed immediately by its continuation. -/
def getSharedAudioContext (w : WindowState) : Except Err (Option AudioContext) × WindowState :=
  finishShared (getSharedSeg1 w).1 (getSharedSeg1 w).2

/-- Modelled from the spec: the repository's `Output.js` is not under
`src/`.  Per spec §4.2 an Output wraps one ProcessingContext with a master
gain node (`volume`, gain nodes start at the default gain `1`) and an
optional analysis attachment.  `id` models reference identity. -/
structure Output where
  id : Nat
  contextId : Nat
  volume : ℚ
  analysis : Option Nat
deriving DecidableEq, Repr

/-- Modelled from the spec: `Output.setVolume(v)` (spec §4.2) passes `v`
through to the gain parameter immediately; no clamping is guaranteed. -/
def Output.setVolume (o : Output) (v : ℚ) : Output :=
  { o with volume := v }

/-- Modelled from the spec: `Output.connectAnalysis(node)` (spec §4.2)
attaches an analysis tap, replacing any prior attachment. -/
def Output.connectAnalysis (o : Output) (n : Nat) : Output :=
  { o with analysis := some n }

/-- A value stored in the sound registry.  `addSound` accepts any
JavaScript value; `truthy` is its JavaScript ToBoolean, which the source
tests with `if (this.#sounds[name])` and `if (sound)`.  `id` identifies the
value. -/
structure SoundValue where
  id : Nat
  truthy : Bool
deriving DecidableEq, Repr

/-- Property read `obj[name]` on the registry object, modelled as an
association list with unique keys in insertion order. -/
def assocLookup : List (String × SoundValue) → String → Option SoundValue
  | [], _ => none
  | (k, v) :: rest, n => if k = n then some v else assocLookup rest n

/-- Models `const sound = this.#sounds[name]; if (sound) ...`: yields the stored
value exactly when the key is present and the value is truthy. -/
def lookupTruthy (l : List (String × SoundValue)) (n : String) : Option SoundValue :=
  match assocLookup l n with
  | some v => if v.truthy then some v else none
  | none => none

/-- The boolean test `if (this.#sounds[name])`. -/
def truthyAt (l : List (String × SoundValue)) (n : String) : Bool :=
  (lookupTruthy l n).isSome

/-- Property write `obj[name] = value`: updates in place if the key exists
(JavaScript objects keep the original insertion position), appends
otherwise. -/
def setKey : List (String × SoundValue) → String → SoundValue → List (String × SoundValue)
  | [], n, v => [(n, v)]
  | (k, w) :: rest, n, v =>
      if k = n then (k, v) :: rest else (k, w) :: setKey rest n v

/-- Models `delete obj[name]`: removes the binding. -/
def eraseKey (l : List (String × SoundValue)) (n : String) : List (String × SoundValue) :=
  l.filter (fun p => p.1 != n)

/-- The `Controller` object state: the private fields `#window`, `#output`,
`#analysis`, `#sounds`, `#volume` of the source class, plus instrumentation
(`nextOutputId`, `outputsCreated` count `new Output(...)` invocations;
`disposedEvents` records `onOutputDisposed` callback invocations for the
spec-modelled `dispose`). -/
structure Controller where
  window : WindowState
  output : Option Output
  analysis : Option Nat
  sounds : List (String × SoundValue)
  volume : ℚ
  nextOutputId : Nat
  outputsCreated : Nat
  disposedEvents : List Nat
deriving DecidableEq, Repr

/-- Constructor `new Controller(window)` (source lines 28–38 of `src/unnamed/part_000`):
field initialisers `#output = null`, `#analysis = null`, `#sounds = {}`,
`#volume = 1.0`; the constructor stores `window`. -/
def Controller.new (w : WindowState) : Controller :=
  { window := w
    output := none
    analysis := none
    sounds := []
    volume := 1
    nextOutputId := 0
    outputsCreated := 0
    disposedEvents := [] }

/-- The Output constructed and initialised by the creation branch of
`acquireOutput` (source lines 49–58): `new Output(audioContext)` followed by
`output.setVolume(this.#volume)` and, when `this.#analysis` is set,
`output.connectAnalysis(this.#analysis)`. -/
def Controller.buildOutput (s : Controller) (ac : AudioContext) : Output :=
  let o0 : Output := { id := s.nextOutputId, contextId := ac.id, volume := 1, analysis := none }
  let o1 := o0.setVolume s.volume
  match s.analysis with
  | some n => o1.connectAnalysis n
  | none => o1

/-- Continuation of `acquireOutput` after `await getSharedAudioContext(...)`
(source lines 46–61): a rejected await rethrows; a falsy context yields
`null`; otherwise the Output is constructed, initialised and stored in
`this.#output`. -/
def Controller.acquireDone (s : Controller) (w : WindowState)
    (r : Except Err (Option AudioContext)) : Except Err (Option Output) × Controller :=
  match r with
  | Except.error e => (Except.error e, { s with window := w })
  | Except.ok none => (Except.ok none, { s with window := w })
  | Except.ok (some ac) =>
      (Except.ok (some (s.buildOutput ac)),
       { s with window := w
                output := some (s.buildOutput ac)
                nextOutputId := s.nextOutputId + 1
                outputsCreated := s.outputsCreated + 1 })

/-- Resumption of one `acquireOutput` call that has already passed its
`if (!output)` check: finish the pending `getSharedAudioContext` and run the
rest of the method body. -/
def Controller.acquireResume (s : Controller) (pw : SharedPhase × WindowState) :
    Except Err (Option Output) × Controller :=
  Controller.acquireDone s (finishShared pw.1 pw.2).2 (finishShared pw.1 pw.2).1

/-- Method `Controller.acquireOutput()` (source lines 41–62), sequential execution:
reads `this.#output`; when set, returns it immediately; otherwise runs
`getSharedAudioContext` and the creation branch. -/
def Controller.acquireOutput (s : Controller) : Except Err (Option Output) × Controller :=
  match s.output with
  | some o => (Except.ok (some o), s)
  | none => s.acquireResume (getSharedSeg1 s.window)

/-- Two `acquireOutput()` calls where the second (B) is issued while the
first (A) is still pending.  Both calls read the same still-`null`
`this.#output` and run the `getSharedAudioContext` prefix before either
resumption runs (an `await` always yields to the caller first); then A's
continuation completes, then B's.  B never re-reads `this.#output`, so its
continuation uses only the state A left behind.  Returns (A's result, B's
result, final state). -/
def Controller.acquireOutputPair (s : Controller) :
    Except Err (Option Output) × Except Err (Option Output) × Controller :=
  match s.output with
  | some o => (Except.ok (some o), Except.ok (some o), s)
  | none =>
      let a := getSharedSeg1 s.window
      let b := getSharedSeg1 a.2
      let ra := s.acquireResume (a.1, b.2)
      let rb := ra.2.acquireResume (b.1, ra.2.window)
      (ra.1, rb.1, rb.2)

/-- Method `Controller.addSound(name, value)` (source lines 65–68): stores the
value in the registry and returns it. -/
def Controller.addSound (s : Controller) (name : String) (v : SoundValue) :
    SoundValue × Controller :=
  (v, { s with sounds := setKey s.sounds name v })

/-- Observable outcome of one `playSound` call: the promise result
(resolved or rejected), the post-state, which sound got `play`ed on which
output (`none` = no `play` invocation), whether the "sound not found"
warning was issued, and whether `acquireOutput` was invoked. -/
structure PlaySummary where
  result : Except Err Unit
  state : Controller
  played : Option (Nat × Nat)
  warnedNotFound : Bool
  acquireAttempted : Bool
deriving DecidableEq, Repr

/-- Method `Controller.playSound(name)` (source lines 71–83): returns early when
`this.#volume <= 0`; otherwise looks the sound up, and when it is truthy
acquires the Output (propagating a rejection, aborting on `null`) and calls
`sound.play(output)`; when it is absent/falsy, warns and returns. -/
def Controller.playSound (s : Controller) (name : String) : PlaySummary :=
  if s.volume ≤ 0 then
    { result := Except.ok ()
      state := s
      played := none
      warnedNotFound := false
      acquireAttempted := false }
  else
    match lookupTruthy s.sounds name with
    | some sv =>
        match s.acquireOutput with
        | (Except.error e, s') =>
            { result := Except.error e
              state := s'
              played := none
              warnedNotFound := false
              acquireAttempted := true }
        | (Except.ok none, s') =>
            { result := Except.ok ()
              state := s'
              played := none
              warnedNotFound := false
              acquireAttempted := true }
        | (Except.ok (some o), s') =>
            { result := Except.ok ()
              state := s'
              played := some (sv.id, o.id)
              warnedNotFound := false
              acquireAttempted := true }
    | none =>
        { result := Except.ok ()
          state := s
          played := none
          warnedNotFound := true
          acquireAttempted := false }

/-- Method `Controller.listSounds()` (source lines 108–110): `Object.keys`. -/
def Controller.listSounds (s : Controller) : List String :=
  s.sounds.map Prod.fst

/-- Method `Controller.getSound(name)` (source lines 103–105). -/
def Controller.getSound (s : Controller) (name : String) : Option SoundValue :=
  assocLookup s.sounds name

/-- Method `Controller.removeSound(name)` (source lines 113–119): tests
`if (this.#sounds[name])` (truthiness!), deletes and returns `true` when the
test passes, returns `false` otherwise. -/
def Controller.removeSound (s : Controller) (name : String) : Bool × Controller :=
  if truthyAt s.sounds name then
    (true, { s with sounds := eraseKey s.sounds name })
  else
    (false, s)

/-- Setter `set analysis(analysisNode)` (source lines 122–129 of
`src/unnamed/part_000`): stores the node; when an Output exists, connects
the node to it immediately. -/
def Controller.setAnalysis (s : Controller) (n : Nat) : Controller :=
  let s1 : Controller := { s with analysis := some n }
  match s1.output with
  | some o => { s1 with output := some (o.connectAnalysis n) }
  | none => s1

/-- Method `Controller.setVolume(volume)` (source lines 132–140): stores the
volume first, then `await this.acquireOutput()` (a rejection surfaces after
the store) and applies the volume to the output when one came back. -/
def Controller.setVolume (s : Controller) (v : ℚ) : Except Err Unit × Controller :=
  let s1 : Controller := { s with volume := v }
  match s1.acquireOutput with
  | (Except.error e, s2) => (Except.error e, s2)
  | (Except.ok none, s2) => (Except.ok (), s2)
  | (Except.ok (some o), s2) => (Except.ok (), { s2 with output := some (o.setVolume v) })

/-- The `onOutputDisposed` invocations a disposal produces: one per live
Output. -/
def disposalRecord : Option Output → List Nat
  | some o => [o.id]
  | none => []

/-- Modelled from the spec: `Controller.dispose()` and the
`onOutputDisposed` lifecycle callback are not under `src/` (only the test
suite exercises them).  Per spec §4.3: if an Output exists, the callback is
invoked with (controller, output) and the Output reference is released;
disposing twice or without an Output must not fail.  `disposedEvents`
records the callback invocations. -/
def Controller.dispose (s : Controller) : Controller :=
  match s.output with
  | some o => { s with output := none, disposedEvents := s.disposedEvents ++ [o.id] }
  | none => s

/-! ## Example environments used by concrete evaluations and witnesses -/

/-- A host window whose context constructor exists and yields a context
that is already `running` (no resume needed). -/
def readyWindow : WindowState :=
  { cached := none, hasCtor := true, initialState := ACState.running
    resumeOk := true, nextContextId := 0, contextsCreated := 0 }

/-- A host window whose freshly constructed context starts `suspended` and
whose `resume()` resolves: each `getSharedAudioContext` call has a genuine
internal suspension point. -/
def raceWindow : WindowState :=
  { cached := none, hasCtor := true, initialState := ACState.suspended
    resumeOk := true, nextContextId := 0, contextsCreated := 0 }

/-- A host window whose freshly constructed context starts `suspended` and
whose `resume()` rejects. -/
def failWindow : WindowState :=
  { cached := none, hasCtor := true, initialState := ACState.suspended
    resumeOk := false, nextContextId := 0, contextsCreated := 0 }

/-- Fresh controller over `raceWindow`. -/
def raceController : Controller := Controller.new raceWindow

/-- Fresh controller over `failWindow` with one (truthy) registered sound. -/
def failPlayController : Controller :=
  ((Controller.new failWindow).addSound ("coin") { id := 7, truthy := true }).2

/-- Extracts the id of the Output inside a resolved non-null result. -/
def okOutputId : Except Err (Option Output) → Option Nat
  | Except.ok (some o) => some o.id
  | _ => none

/-! ## Helper lemmas about `acquireOutput` -/

theorem Controller.buildOutput_volume (s : Controller) (ac : AudioContext) :
    (s.buildOutput ac).volume = s.volume := by
  cases h : s.analysis <;>
    simp [Controller.buildOutput, h, Output.setVolume, Output.connectAnalysis]

theorem Controller.buildOutput_analysis (s : Controller) (ac : AudioContext) :
    (s.buildOutput ac).analysis = s.analysis := by
  cases h : s.analysis <;>
    simp [Controller.buildOutput, h, Output.setVolume, Output.connectAnalysis]

/-- When the creation continuation resolves with an Output, that Output is
stored in `#output`, carries the controller's stored volume and analysis
attachment, and the other fields are untouched. -/
theorem Controller.acquireDone_ok_some {s : Controller} {w : WindowState}
    {r : Except Err (Option AudioContext)} {o : Output} {s' : Controller}
    (h : Controller.acquireDone s w r = (Except.ok (some o), s')) :
    s'.output = some o ∧ o.volume = s.volume ∧ o.analysis = s.analysis ∧
    s'.volume = s.volume ∧ s'.sounds = s.sounds ∧ s'.analysis = s.analysis := by
  cases r with
  | error e => simp [Controller.acquireDone] at h
  | ok ro =>
    cases ro with
    | none => simp [Controller.acquireDone] at h
    | some ac =>
      simp only [Controller.acquireDone, Prod.mk.injEq, Except.ok.injEq,
        Option.some.injEq] at h
      obtain ⟨ho, hs⟩ := h
      subst ho
      subst hs
      exact ⟨rfl, Controller.buildOutput_volume s ac, Controller.buildOutput_analysis s ac,
        rfl, rfl, rfl⟩

/-- The function `acquireResume` is the creation continuation applied to the finished
shared-context fetch. -/
theorem Controller.acquireResume_ok_some {s : Controller} {pw : SharedPhase × WindowState}
    {o : Output} {s' : Controller}
    (h : Controller.acquireResume s pw = (Except.ok (some o), s')) :
    s'.output = some o ∧ o.volume = s.volume ∧ o.analysis = s.analysis ∧
    s'.volume = s.volume ∧ s'.sounds = s.sounds ∧ s'.analysis = s.analysis := by
  exact Controller.acquireDone_ok_some (by simpa [Controller.acquireResume] using h)

/-- Resolving `acquireOutput` with an Output leaves that Output in
`#output`; when the controller had none, the Output carries the stored
volume and analysis attachment. -/
theorem Controller.acquireOutput_ok_some {s : Controller} {o : Output} {s' : Controller}
    (h : s.acquireOutput = (Except.ok (some o), s')) :
    s'.output = some o ∧ s'.volume = s.volume ∧ s'.sounds = s.sounds ∧
    (s.output = none → o.volume = s.volume ∧ o.analysis = s.analysis) := by
  cases hso : s.output with
  | some o0 =>
    simp only [Controller.acquireOutput, hso, Prod.mk.injEq, Except.ok.injEq,
      Option.some.injEq] at h
    obtain ⟨ho, hs⟩ := h
    subst ho
    subst hs
    exact ⟨hso, rfl, rfl, fun hn => by simp_all⟩
  | none =>
    simp only [Controller.acquireOutput, hso] at h
    have hr := Controller.acquireResume_ok_some h
    exact ⟨hr.1, hr.2.2.2.1, hr.2.2.2.2.1, fun _ => ⟨hr.2.1, hr.2.2.1⟩⟩

/-- A rejected `acquireOutput` changes nothing but the window cache
bookkeeping: the controller state differs at most in `window`. -/
theorem Controller.acquireOutput_error {s : Controller} {e : Err} {s' : Controller}
    (h : s.acquireOutput = (Except.error e, s')) :
    s' = { s with window := s'.window } := by
  cases hso : s.output with
  | some o0 => simp [Controller.acquireOutput, hso] at h
  | none =>
    simp only [Controller.acquireOutput, hso, Controller.acquireResume] at h
    cases hr : (finishShared (getSharedSeg1 s.window).1 (getSharedSeg1 s.window).2).1 with
    | error e' =>
      rw [hr] at h
      simp only [Controller.acquireDone, Prod.mk.injEq, Except.error.injEq] at h
      obtain ⟨he, h2⟩ := h
      subst h2
      simp [hso]
    | ok ro =>
      rw [hr] at h
      cases ro <;> simp [Controller.acquireDone] at h

/-- A `null`-resolving `acquireOutput` also changes at most `window`. -/
theorem Controller.acquireOutput_ok_none {s : Controller} {s' : Controller}
    (h : s.acquireOutput = (Except.ok none, s')) :
    s' = { s with window := s'.window } := by
  cases hso : s.output with
  | some o0 => simp [Controller.acquireOutput, hso] at h
  | none =>
    simp only [Controller.acquireOutput, hso, Controller.acquireResume] at h
    cases hr : (finishShared (getSharedSeg1 s.window).1 (getSharedSeg1 s.window).2).1 with
    | error e' =>
      rw [hr] at h
      simp [Controller.acquireDone] at h
    | ok ro =>
      rw [hr] at h
      cases ro with
      | none =>
        simp only [Controller.acquireDone, Prod.mk.injEq] at h
        obtain ⟨-, h2⟩ := h
        subst h2
        simp [hso]
      | some ac => simp [Controller.acquireDone] at h

/-! ## Claim theorems -/

/-- Claim C1 (evaluation at the failing input).  Two concurrent
`acquireOutput()` calls on a fresh Controller, the second issued while the
first is suspended on context creation/resumption, perform TWO
ProcessingContext constructions and TWO Output constructions, and the two
calls resolve to DIFFERENT Output instances (ids 0 and 1; the second
overwrites the first in `#output`): the source memoizes only the eventual
`#output` value, not the in-flight promise, so the claimed
single-in-flight-operation contract does not hold. -/
theorem acquireOutputPair_race_duplicates :
    (Controller.acquireOutputPair raceController).2.2.window.contextsCreated = 2 ∧
    (Controller.acquireOutputPair raceController).2.2.outputsCreated = 2 ∧
    okOutputId (Controller.acquireOutputPair raceController).1 = some 0 ∧
    okOutputId (Controller.acquireOutputPair raceController).2.1 = some 1 ∧
    (Controller.acquireOutputPair raceController).1 =
      Except.ok (some { id := 0, contextId := 0, volume := 1, analysis := none }) ∧
    (Controller.acquireOutputPair raceController).2.1 =
      Except.ok (some { id := 1, contextId := 1, volume := 1, analysis := none }) :=
  ⟨rfl, rfl, rfl, rfl, rfl, rfl⟩

/-- Claim C2 (evaluation at the failing input).  When context resumption
fails (`resume()` rejects on a suspended fresh context), `acquireOutput()`
does NOT yield a null result: the rejection propagates as an exception, and
`setVolume` and `playSound` (on a registered sound) reject as well instead
of completing as no-ops — contradicting the source's own doc comment
"returns null if not available".  The volume store still happens before the
failing await. -/
theorem acquireOutput_resume_failure_raises :
    (Controller.acquireOutput (Controller.new failWindow)).1 =
      Except.error Err.resumeRejected ∧
    ((Controller.new failWindow).setVolume (1/2)).1 = Except.error Err.resumeRejected ∧
    ((Controller.new failWindow).setVolume (1/2)).2.volume = 1/2 ∧
    (Controller.playSound failPlayController ("coin")).result =
      Except.error Err.resumeRejected ∧
    failPlayController.volume = 1 ∧
    lookupTruthy failPlayController.sounds ("coin") = some { id := 7, truthy := true } :=
  ⟨rfl, rfl, rfl, rfl, rfl, rfl⟩

/-- Claim C3: once an `acquireOutput()` call has succeeded, a later
`acquireOutput()` call returns the identical Output instance with the state
unchanged — in particular no new Output is constructed (idempotent after
first success). -/
theorem acquireOutput_idempotent_after_success (s : Controller) (o : Output) (s' : Controller)
    (h : s.acquireOutput = (Except.ok (some o), s')) :
    s'.acquireOutput = (Except.ok (some o), s') := by
  have h1 := (Controller.acquireOutput_ok_some h).1
  simp [Controller.acquireOutput, h1]

/-- Post-state of a first successful acquisition over `readyWindow`. -/
def afterFirstAcquire : Controller := ((Controller.new readyWindow).acquireOutput).2

/-- Witness for C3: at the concrete fresh controller over `readyWindow`,
the second call returns the Output created by the first call (id 0) and
leaves the state untouched. -/
theorem acquireOutput_idempotent_after_success_witness :
    Controller.acquireOutput afterFirstAcquire =
      (Except.ok (some { id := 0, contextId := 0, volume := 1, analysis := none }),
       afterFirstAcquire) :=
  acquireOutput_idempotent_after_success (Controller.new readyWindow) _ _ rfl

/-- Claim C4: with no Output yet, `setVolume(v)` stores `v` unconditionally
(the store precedes the acquisition attempt, so it survives even a failed
acquisition), and any subsequent successful `acquireOutput()` yields an
Output whose gain equals `v`. -/
theorem setVolume_persists_and_applies (s : Controller) (v : ℚ)
    (hno : s.output = none) :
    (s.setVolume v).2.volume = v ∧
    (∀ o s2, (s.setVolume v).2.acquireOutput = (Except.ok (some o), s2) → o.volume = v) := by
  rcases hacq : ({ s with volume := v } : Controller).acquireOutput with ⟨r, s1⟩
  have hvol : s1.volume = v := by
    cases r with
    | error e =>
      have := Controller.acquireOutput_error hacq
      rw [this]
    | ok ro =>
      cases ro with
      | none =>
        have := Controller.acquireOutput_ok_none hacq
        rw [this]
      | some o => exact (Controller.acquireOutput_ok_some hacq).2.1
  cases r with
  | error e =>
    have hst := Controller.acquireOutput_error hacq
    constructor
    · simp [Controller.setVolume, hacq, hvol]
    · intro o s2 h2
      simp only [Controller.setVolume, hacq] at h2
      have h3 := (Controller.acquireOutput_ok_some h2).2.2.2
      have hout1 : s1.output = none := by rw [hst]; exact hno
      rw [hvol] at h3
      exact (h3 hout1).1
  | ok ro =>
    cases ro with
    | none =>
      have hst := Controller.acquireOutput_ok_none hacq
      constructor
      · simp [Controller.setVolume, hacq, hvol]
      · intro o s2 h2
        simp only [Controller.setVolume, hacq] at h2
        have h3 := (Controller.acquireOutput_ok_some h2).2.2.2
        have hout1 : s1.output = none := by rw [hst]; exact hno
        rw [hvol] at h3
        exact (h3 hout1).1
    | some o1 =>
      have hsome := Controller.acquireOutput_ok_some hacq
      constructor
      · simp [Controller.setVolume, hacq, hvol]
      · intro o s2 h2
        simp only [Controller.setVolume, hacq] at h2
        have hout : ({ s1 with output := some (o1.setVolume v) } : Controller).output
            = some (o1.setVolume v) := rfl
        have h4 := (Controller.acquireOutput_ok_some h2).1
        simp only [Controller.acquireOutput, hout] at h2
        obtain ⟨ho, -⟩ := Prod.mk.injEq .. ▸ h2
        have ho' : o1.setVolume v = o := by
          have := ho
          simp only [Except.ok.injEq, Option.some.injEq] at this
          exact this
        rw [← ho']
        rfl

/-- Witness for C4: at the concrete fresh controller over `readyWindow` and
v = 4/5 the stored volume is 4/5 and the acquired Output carries gain 4/5. -/
theorem setVolume_persists_and_applies_witness :
    (Controller.new readyWindow).output = none ∧
    ((Controller.new readyWindow).setVolume (4/5)).2.volume = 4/5 ∧
    (∀ o s2,
      ((Controller.new readyWindow).setVolume (4/5)).2.acquireOutput =
        (Except.ok (some o), s2) → o.volume = 4/5) :=
  ⟨rfl, setVolume_persists_and_applies (Controller.new readyWindow) (4/5) rfl⟩

/-- Claim C5: with stored volume ≤ 0, `playSound(name)` returns at once —
no Sound is played, no warning is issued, `acquireOutput` is not invoked
and the state is unchanged, whether or not `name` is registered. -/
theorem playSound_muted_short_circuit (s : Controller) (name : String)
    (h : s.volume ≤ 0) :
    s.playSound name =
      { result := Except.ok ()
        state := s
        played := none
        warnedNotFound := false
        acquireAttempted := false } := by
  unfold Controller.playSound
  rw [if_pos h]

/-- A controller with one registered (truthy) sound and stored volume 0. -/
def mutedController : Controller :=
  { (((Controller.new readyWindow).addSound ("coin") { id := 3, truthy := true }).2)
      with volume := 0 }

/-- Witness for C5: at the concrete muted controller with `'coin'`
registered, `playSound('coin')` plays nothing and attempts no
acquisition. -/
theorem playSound_muted_short_circuit_witness :
    Controller.playSound mutedController ("coin") =
      { result := Except.ok ()
        state := mutedController
        played := none
        warnedNotFound := false
        acquireAttempted := false } :=
  playSound_muted_short_circuit mutedController ("coin") (by decide)

/-- Counterexample to claim C6 as stated.  At a fresh controller (stored
volume 1 > 0) with an empty registry, `playSound('coin')` does NOT attempt
Output acquisition: the lookup miss takes the `else` branch, which only
warns and returns — the claim's "attempts Output acquisition even when no
sound is registered under name" is false. -/
theorem playSound_missing_skips_acquisition :
    (0 : ℚ) < (Controller.new readyWindow).volume ∧
    lookupTruthy (Controller.new readyWindow).sounds ("coin") = none ∧
    (Controller.playSound (Controller.new readyWindow) "coin").acquireAttempted = false ∧
    (Controller.playSound (Controller.new readyWindow) "coin").warnedNotFound = true ∧
    (Controller.playSound (Controller.new readyWindow) "coin").result = Except.ok () ∧
    (Controller.playSound (Controller.new readyWindow) "coin").state =
      Controller.new readyWindow :=
  ⟨by decide, rfl, rfl, rfl, rfl, rfl⟩

/-- Claim C6 as amended: with stored volume > 0 and no (truthy) sound
registered under `name`, `playSound(name)` does NOT attempt Output
acquisition; the lookup miss is reported only as a warning and the
operation completes as a no-op without raising. -/
theorem playSound_missing_sound_warns (s : Controller) (name : String)
    (h1 : 0 < s.volume) (h2 : lookupTruthy s.sounds name = none) :
    s.playSound name =
      { result := Except.ok ()
        state := s
        played := none
        warnedNotFound := true
        acquireAttempted := false } := by
  unfold Controller.playSound
  rw [if_neg (not_le.mpr h1), h2]

/-- Witness for the amended C6 at a concrete fresh controller. -/
theorem playSound_missing_sound_warns_witness :
    Controller.playSound (Controller.new raceWindow) "jump" =
      { result := Except.ok ()
        state := Controller.new raceWindow
        played := none
        warnedNotFound := true
        acquireAttempted := false } :=
  playSound_missing_sound_warns (Controller.new raceWindow) "jump" (by decide) rfl

/-- Deleting a key removes it from the key list. -/
theorem eraseKey_keys_not_mem (l : List (String × SoundValue)) (n : String) :
    n ∉ (eraseKey l n).map Prod.fst := by
  simp only [eraseKey, List.mem_map]
  rintro ⟨p, hp, hn⟩
  rw [List.mem_filter] at hp
  have h2 := hp.2
  rw [hn] at h2
  simp at h2

/-- A controller whose registry stores a FALSY value under "x" (any falsy
JavaScript value stored via `addSound('x', value)`). -/
def falsyEntryController : Controller :=
  ((Controller.new readyWindow).addSound ("x") { id := 0, truthy := false }).2

/-- Counterexample to claim C7 as stated.  `addSound` accepts any value;
after storing a falsy value under "x", an entry for "x" IS present
(`assocLookup` finds it and `listSounds()` lists it), yet
`removeSound("x")` returns `false` and deletes nothing — the source tests
`if (this.#sounds[name])`, i.e. truthiness, not presence. -/
theorem removeSound_falsy_entry_not_removed :
    assocLookup falsyEntryController.sounds ("x") = some { id := 0, truthy := false } ∧
    falsyEntryController.listSounds = ["x"] ∧
    (falsyEntryController.removeSound ("x")).1 = false ∧
    (falsyEntryController.removeSound ("x")).2 = falsyEntryController ∧
    (falsyEntryController.removeSound ("x")).2.listSounds = [("x")] :=
  ⟨rfl, rfl, rfl, rfl, rfl⟩

/-- Claim C7 as amended: `removeSound(name)` returns `true` exactly when a
TRUTHY value is stored under `name` beforehand; in that case it deletes the
entry and a subsequent `listSounds()` excludes `name`; otherwise (absent
key or falsy value) it returns `false` and leaves the controller
unchanged. -/
theorem removeSound_truthy_characterisation (s : Controller) (name : String) :
    ((s.removeSound name).1 = truthyAt s.sounds name) ∧
    (truthyAt s.sounds name = true →
      (s.removeSound name).2.sounds = eraseKey s.sounds name ∧
      name ∉ (s.removeSound name).2.listSounds) ∧
    (truthyAt s.sounds name = false → (s.removeSound name).2 = s) := by
  cases h : truthyAt s.sounds name with
  | true =>
    refine ⟨?_, fun _ => ⟨?_, ?_⟩, fun hc => by simp at hc⟩
    · simp [Controller.removeSound, h]
    · simp [Controller.removeSound, h]
    · simp only [Controller.removeSound, h, if_true, Controller.listSounds]
      exact eraseKey_keys_not_mem s.sounds name
  | false =>
    refine ⟨?_, fun hc => by simp at hc, fun _ => ?_⟩ <;>
      simp [Controller.removeSound, h]

/-- A controller whose registry stores a truthy value under "x". -/
def truthyEntryController : Controller :=
  ((Controller.new readyWindow).addSound ("x") { id := 1, truthy := true }).2

/-- Witness for the amended C7: at a concrete controller with a truthy
entry under "x", `removeSound` returns `true` and `listSounds()` excludes
"x" afterwards. -/
theorem removeSound_truthy_characterisation_witness :
    (truthyEntryController.removeSound ("x")).1 = truthyAt truthyEntryController.sounds ("x") ∧
    ("x") ∉ (truthyEntryController.removeSound ("x")).2.listSounds :=
  ⟨(removeSound_truthy_characterisation truthyEntryController ("x")).1,
   ((removeSound_truthy_characterisation truthyEntryController ("x")).2.1 rfl).2⟩

/-- Claim C8: `dispose()` is idempotent — a second disposal is the
identity (so it cannot fail and re-invokes no callback), disposal with no
Output changes nothing, one `onOutputDisposed` invocation is recorded per
disposal that had a live Output (none otherwise), and after disposal no
Output remains.  (`dispose` is modelled from the spec, see its doc
comment.) -/
theorem dispose_idempotent_single_callback (s : Controller) :
    Controller.dispose (Controller.dispose s) = Controller.dispose s ∧
    (Controller.dispose s).disposedEvents = s.disposedEvents ++ disposalRecord s.output ∧
    (Controller.dispose s).output = none := by
  cases h : s.output with
  | some o => simp [Controller.dispose, h, disposalRecord]
  | none => simp [Controller.dispose, h, disposalRecord]

/-- Claim C9: the `analysis` setter stores the node; when an Output already
exists the node is connected to it immediately; and when an Output is
created later by `acquireOutput()` on a controller whose analysis node is
set, the created Output carries that attachment. -/
theorem analysis_setter_stores_and_reattaches (s : Controller) (n : Nat) :
    (s.setAnalysis n).analysis = some n ∧
    (∀ o, s.output = some o → (s.setAnalysis n).output = some (o.connectAnalysis n)) ∧
    (∀ o s', s.analysis = some n → s.output = none →
      s.acquireOutput = (Except.ok (some o), s') → o.analysis = some n) := by
  refine ⟨?_, ?_, ?_⟩
  · cases h : s.output <;> simp [Controller.setAnalysis, h]
  · intro o h
    simp [Controller.setAnalysis, h]
  · intro o s' ha hn hacq
    have := ((Controller.acquireOutput_ok_some hacq).2.2.2 hn).2
    rw [this, ha]

/-- Controller with analysis node 5 set before any acquisition. -/
def analysisSetController : Controller := (Controller.new readyWindow).setAnalysis 5

/-- Witness for C9 at concrete inputs: the setter stored node 5, and the
Output created by the subsequent acquisition carries attachment 5. -/
theorem analysis_setter_stores_and_reattaches_witness :
    (analysisSetController.setAnalysis 5).analysis = some 5 ∧
    ({ id := 0, contextId := 0, volume := 1, analysis := some 5 } : Output).analysis
      = some 5 :=
  ⟨(analysis_setter_stores_and_reattaches analysisSetController 5).1,
   (analysis_setter_stores_and_reattaches analysisSetController 5).2.2
     { id := 0, contextId := 0, volume := 1, analysis := some 5 }
     (analysisSetController.acquireOutput).2 rfl rfl rfl⟩

/-- Claim C10: a freshly constructed Controller stores volume exactly 1.0
(strictly positive, so `playSound` is not short-circuited by default) and
an empty sound registry (`listSounds()` returns the empty list). -/
theorem new_controller_defaults (w : WindowState) :
    (Controller.new w).volume = 1 ∧
    (0 : ℚ) < (Controller.new w).volume ∧
    (Controller.new w).sounds = [] ∧
    (Controller.new w).listSounds = [] :=
  ⟨rfl, by norm_num [Controller.new], rfl, rfl⟩
